import Mathlib

/-!
Verification of the Bridge AI voice-command relay (bridge_ai.py).

The definitions below are a shallow embedding of the program:
  * strings are `List Char` / `String`, Python floats are modelled as `ℚ`
    (every numeric literal and comparison the program performs on these
    values is exact at this precision);
  * the regular-expression fast path is embedded through a small
    backtracking matcher with Python `re.search` semantics (leftmost
    start position, left-biased alternation, greedy quantifiers,
    last-wins capture groups);
  * the Python stdlib `json.loads` collaborator is modelled by `jsonLoads`
    on the JSON subset the program exchanges (objects with string keys,
    strings without escape sequences, numbers without exponents, booleans,
    null); `float(x)` is modelled by `pyFloatOf` / `pyParseFloat` on the
    plain decimal grammar.
All definitions are executable and evaluated by the kernel on the concrete
inputs of the theorems.
-/

/-- Python `str.lower` on the ASCII text the program handles. -/
def lowerList (l : List Char) : List Char := l.map Char.toLower

/-- Python `str.strip()` (whitespace at both ends). -/
def trimList (l : List Char) : List Char :=
  ((l.dropWhile Char.isWhitespace).reverse.dropWhile Char.isWhitespace).reverse

/-- Python `str.rstrip(c)` for a single character. -/
def rstripChar (c : Char) (l : List Char) : List Char :=
  (l.reverse.dropWhile (fun a => a = c)).reverse

/-- `a` is a prefix of `b`. -/
def leadsWith : List Char → List Char → Bool
  | [], _ => true
  | _ :: _, [] => false
  | a :: as, b :: bs => a = b && leadsWith as bs

/-- Python `needle in haystack` on strings (substring containment). -/
def sublist (n : List Char) : List Char → Bool
  | [] => n.isEmpty
  | c :: t => leadsWith n (c :: t) || sublist n t

/-- Index of the first occurrence of `c` (Python `str.find`, as an Option). -/
def findIdx : Char → List Char → Option Nat
  | _, [] => none
  | c, a :: as => if a = c then some 0 else (findIdx c as).map (· + 1)

/-- Index of the last occurrence of `c` (Python `str.rfind`, as an Option). -/
def rfindIdx (c : Char) (l : List Char) : Option Nat :=
  (findIdx c l.reverse).map (fun i => l.length - 1 - i)

/-- Python slice `l[a:b]`. -/
def sliceList (l : List Char) (a b : Nat) : List Char := (l.drop a).take (b - a)

def isWordChar (c : Char) : Bool := c.isAlphanum || c = '_'

def isDigitChar (c : Char) : Bool := c.isDigit

def isSpaceChar (c : Char) : Bool :=
  c = ' ' || c = '\t' || c = '\n' || c = '\r' || c = '\x0b' || c = '\x0c'

def isDotChar (c : Char) : Bool := c ≠ '\n'

/-- Value of a list of decimal digits. -/
def digitsVal (l : List Char) : Nat := l.foldl (fun acc c => acc * 10 + (c.toNat - 48)) 0

/-- Python `float(s)` on the unsigned decimal grammar `\d+(\.\d+)?`
(the only shape the program ever converts). -/
def parseFloat (l : List Char) : Option ℚ :=
  let ip := l.takeWhile isDigitChar
  let rest := l.dropWhile isDigitChar
  if ip.isEmpty then none
  else
    match rest with
    | [] => some (digitsVal ip : ℚ)
    | c :: frac =>
      if c = '.' && frac.all isDigitChar && !frac.isEmpty then
        some ((digitsVal ip : ℚ) + mkRat (digitsVal frac) (10 ^ frac.length))
      else none

/-- Python `float(s)` with surrounding whitespace and an optional sign. -/
def pyParseFloat (l : List Char) : Option ℚ :=
  match trimList l with
  | '-' :: rest => (parseFloat rest).map Neg.neg
  | '+' :: rest => parseFloat rest
  | t => parseFloat t

/-- Python `str.capitalize()`: first character upper-cased, the rest lower-cased. -/
def pyCapitalize (s : String) : String :=
  match s.data with
  | [] => ""
  | c :: cs => String.mk (c.toUpper :: cs.map Char.toLower)

/-! ## A backtracking regex matcher with Python `re` semantics -/

/-- Abstract syntax of the regular expressions the pattern matcher uses.
`star` and `opt` are greedy, `alt` is left-biased, `grp` is a numbered
capturing group, `eos` is the end anchor. -/
inductive Regex where
  | eps
  | pred (p : Char → Bool)
  | lit (cs : List Char)
  | seq (a b : Regex)
  | alt (a b : Regex)
  | star (r : Regex)
  | opt (r : Regex)
  | grp (n : Nat) (r : Regex)
  | eos

abbrev Caps := List (Nat × List Char)

def dropLit (cs s : List Char) : Option (List Char) :=
  if leadsWith cs s then some (s.drop cs.length) else none

/-- One layer of matching: all ways `r` can match a prefix of `s`, as
(remaining input, captures) pairs in backtracking priority order.
Star continuation goes through `recStar` (fuel handled by `mall`);
an iteration must consume input, as in Python's `re`. -/
def mstep (recStar : Regex → List Char → Caps → List (List Char × Caps)) :
    Regex → List Char → Caps → List (List Char × Caps)
  | .eps, s, cp => [(s, cp)]
  | .pred p, s, cp =>
    match s with
    | [] => []
    | c :: rest => if p c then [(rest, cp)] else []
  | .lit cs, s, cp =>
    match dropLit cs s with
    | some s2 => [(s2, cp)]
    | none => []
  | .seq a b, s, cp => (mstep recStar a s cp).flatMap (fun r => mstep recStar b r.1 r.2)
  | .alt a b, s, cp => mstep recStar a s cp ++ mstep recStar b s cp
  | .star r, s, cp =>
    ((mstep recStar r s cp).filter (fun r2 => decide (r2.1.length < s.length))).flatMap
      (fun r2 => recStar (.star r) r2.1 r2.2) ++ [(s, cp)]
  | .opt r, s, cp => mstep recStar r s cp ++ [(s, cp)]
  | .grp n r, s, cp =>
    (mstep recStar r s cp).map (fun r2 => (r2.1, (n, s.take (s.length - r2.1.length)) :: r2.2))
  | .eos, s, cp => if s.isEmpty then [(s, cp)] else []

/-- All matches of `r` against a prefix of `s`, with `f` fuel levels for
star iterations (each iteration consumes input, so `s.length` levels
always suffice). -/
def mall : Nat → Regex → List Char → Caps → List (List Char × Caps)
  | 0, r, s, cp => mstep (fun _ _ _ => []) r s cp
  | f + 1, r, s, cp => mstep (mall f) r s cp

/-- Anchored match at the current position (Python `re.match`-like). -/
def researchAt (f : Nat) (r : Regex) (s : List Char) : Option Caps :=
  match mall f r s [] with
  | x :: _ => some x.2
  | [] => none

/-- Python `re.search`: try each start position left to right. -/
def research (f : Nat) (r : Regex) : List Char → Option Caps
  | [] => researchAt f r []
  | c :: s2 =>
    match researchAt f r (c :: s2) with
    | some cp => some cp
    | none => research f r s2

/-- Captured text of group `n` (`match.group(n)`), the most recent binding. -/
def capGet (cp : Caps) (n : Nat) : Option (List Char) := List.lookup n cp

def capNum (cp : Caps) (n : Nat) : Option ℚ := (capGet cp n).bind parseFloat

/-- `re.search(r, t)` with adequate fuel for `t`. -/
def rsrch (r : Regex) (t : List Char) : Option Caps := research (t.length + 8) r t

/-- Anchored search (a pattern beginning with the `^` anchor). -/
def rsrchAt (r : Regex) (t : List Char) : Option Caps := researchAt (t.length + 8) r t

def rlit (s : String) : Regex := .lit s.data

def rcat (l : List Regex) : Regex := l.foldr .seq .eps

def ralt : List Regex → Regex
  | [] => .eps
  | [r] => r
  | r :: rs => .alt r (ralt rs)

def rplus (r : Regex) : Regex := .seq r (.star r)

def wplus : Regex := rplus (.pred isWordChar)

def splus : Regex := rplus (.pred isSpaceChar)

def sstar : Regex := Regex.star (.pred isSpaceChar)

def dplus : Regex := rplus (.pred isDigitChar)

def dotstar : Regex := Regex.star (.pred isDotChar)

def dotplus : Regex := rplus (.pred isDotChar)

/-- The regex fragment `\d+(?:\.\d+)?`. -/
def numRe : Regex := rcat [dplus, .opt (rcat [rlit ".", dplus])]

/-- The regex fragment `\w+(?:\s+\w+)?`. -/
def twoWordRe : Regex := rcat [wplus, .opt (rcat [splus, wplus])]

/-! ## Data model (Department, Intent, BridgeCommand, validation) -/

/-- The values of the `Department` enumeration, in declaration order
(`[d.value for d in Department]`). -/
def validDepartments : List String := ["helm", "tactical", "engineering", "ops"]

/-- The values of the `Intent` enumeration, in declaration order
(`[i.value for i in Intent]`). -/
def validIntents : List String :=
  ["navigate", "navigate_coordinates", "warp", "impulse", "stop", "disengage", "orbit",
   "reverse", "turn", "evasive", "dock", "land",
   "raise_shields", "lower_shields", "red_alert", "yellow_alert", "green_alert", "fire",
   "status", "damage_report", "scan", "hail", "viewscreen"]

/-- The `BridgeCommand` dataclass. Numeric fields are `ℚ` (Python floats,
exact at every value the program manipulates). -/
structure BridgeCommand where
  department : String
  intent : String
  target : Option String
  warp_factor : Option ℚ
  impulse_percent : Option ℚ
  maneuver : Option String
deriving DecidableEq, Repr

/-- `BridgeCommand.is_valid` (bridge_ai.py lines 143-174): department and
intent must be enumeration members, `warp_factor` (if present) must satisfy
`0 < w < 10`, `impulse_percent` (if present) must satisfy `0 <= i <= 100`. -/
def BridgeCommand.is_valid (c : BridgeCommand) : Bool :=
  validDepartments.contains c.department &&
  validIntents.contains c.intent &&
  (match c.warp_factor with
   | none => true
   | some w => decide (0 < w) && decide (w < 10)) &&
  (match c.impulse_percent with
   | none => true
   | some i => decide (0 ≤ i) && decide (i ≤ 100))

/-- The `valid_targets` alias table of `_try_pattern_match`
(bridge_ai.py lines 695-710), in source order. -/
def valid_targets : List (String × String) :=
  [("sun", "Sun"), ("the sun", "Sun"), ("sol", "Sun"),
   ("mercury", "Mercury"),
   ("venus", "Venus"),
   ("earth", "Earth"), ("terra", "Earth"), ("home", "Earth"),
   ("moon", "Moon"), ("the moon", "Moon"), ("luna", "Moon"),
   ("mars", "Mars"),
   ("jupiter", "Jupiter"),
   ("saturn", "Saturn"),
   ("uranus", "Uranus"),
   ("neptune", "Neptune"),
   ("pluto", "Pluto"),
   ("starbase", "Starbase 1"), ("starbase 1", "Starbase 1"), ("starbase one", "Starbase 1"),
   ("spacedock", "Starbase 1"), ("space dock", "Starbase 1"),
   ("deep space nine", "Deep Space Nine"), ("deep space 9", "Deep Space Nine"),
   ("ds9", "Deep Space Nine")]

/-- The `target_map` alias table of the LLM-reply normalizer
(bridge_ai.py lines 1047-1061), in source order. -/
def target_map : List (String × String) :=
  [("sol", "Sun"),
   ("the sun", "Sun"),
   ("terra", "Earth"),
   ("home", "Earth"),
   ("luna", "Moon"),
   ("the moon", "Moon"),
   ("starbase one", "Starbase 1"),
   ("starbase", "Starbase 1"),
   ("spacedock", "Starbase 1"),
   ("space dock", "Starbase 1"),
   ("deep space nine", "Deep Space Nine"),
   ("deep space 9", "Deep Space Nine"),
   ("ds9", "Deep Space Nine")]

/-- `valid_targets.get(t, t.capitalize())`: the alias lookup idiom of the
fast-path pattern matcher (orbit/scan/hail/dock/land families). -/
def fastNormalizeTarget (t : String) : String :=
  (List.lookup t valid_targets).getD (pyCapitalize t)

/-- `target_map.get(t, t.capitalize())`: the alias lookup applied to the
LLM reply's target (bridge_ai.py lines 1062-1063). -/
def llmNormalizeTarget (t : String) : String :=
  (List.lookup t target_map).getD (pyCapitalize t)

/-! ## Conversational memory -/

/-- The `CommandMemory` state. -/
structure CommandMemory where
  last_destination : Option String
  last_warp_factor : Option ℚ
  last_impulse : Option ℚ
  shields_raised : Bool
  at_warp : Bool
deriving DecidableEq, Repr

/-- Memory as `CommandMemory.__init__` creates it. -/
def CommandMemory.init : CommandMemory := ⟨none, none, none, false, false⟩

/-- The `if command.target:` block of `CommandMemory.update` (lines 199-200).
Python truthiness: an empty string is falsy. -/
def updTarget (m : CommandMemory) (c : BridgeCommand) : CommandMemory :=
  match c.target with
  | some t => if t ≠ "" then { m with last_destination := some t } else m
  | none => m

/-- The `if command.warp_factor:` block (lines 202-203). Python truthiness:
0 is falsy. -/
def updWarp (m : CommandMemory) (c : BridgeCommand) : CommandMemory :=
  match c.warp_factor with
  | some w => if w ≠ 0 then { m with last_warp_factor := some w } else m
  | none => m

/-- The `if command.impulse_percent is not None:` block (lines 205-206). -/
def updImpulse (m : CommandMemory) (c : BridgeCommand) : CommandMemory :=
  match c.impulse_percent with
  | some i => { m with last_impulse := some i }
  | none => m

/-- The warp-state tracking block (lines 209-213). -/
def updWarpState (m : CommandMemory) (c : BridgeCommand) : CommandMemory :=
  if c.intent = "warp" ∨ c.intent = "navigate" then
    match c.warp_factor with
    | some w => if w ≠ 0 then { m with at_warp := true } else m
    | none => m
  else if c.intent = "stop" ∨ c.intent = "impulse" ∨ c.intent = "disengage" ∨
      c.intent = "orbit" then
    { m with at_warp := false }
  else m

/-- The shield-state tracking block (lines 216-219). -/
def updShields (m : CommandMemory) (c : BridgeCommand) : CommandMemory :=
  if c.intent = "raise_shields" then { m with shields_raised := true }
  else if c.intent = "lower_shields" then { m with shields_raised := false }
  else m

/-- `CommandMemory.update` (bridge_ai.py lines 197-219): the four blocks of
the method, in source order. -/
def CommandMemory.update (m : CommandMemory) (c : BridgeCommand) : CommandMemory :=
  updShields (updWarpState (updImpulse (updWarp (updTarget m c) c) c) c) c

/-! ## The fast-path pattern matcher `_try_pattern_match` -/

/-- `text.lower().strip().rstrip('.').rstrip(',').rstrip('!')`
(bridge_ai.py line 692). -/
def preprocess (s : String) : List Char :=
  rstripChar '!' (rstripChar ',' (rstripChar '.' (trimList (lowerList s.data))))

/-- Python `needle in text` for the preprocessed text. -/
def hasSub (s : String) (t : List Char) : Bool := sublist s.data t

/-- `warp\s*(?:factor\s*|speed\s*)?(\d+(?:\.\d+)?)` (line 717). -/
def warpMatchRe : Regex :=
  rcat [rlit "warp", sstar,
    .opt (.alt (rcat [rlit "factor", sstar]) (rcat [rlit "speed", sstar])),
    .grp 1 numRe]

/-- `(?:increase|raise|change|set|adjust)\s+(?:speed\s+)?to\s+warp\s*(\d+(?:\.\d+)?)` (line 720). -/
def increaseWarpRe : Regex :=
  rcat [ralt [rlit "increase", rlit "raise", rlit "change", rlit "set", rlit "adjust"],
    splus, .opt (rcat [rlit "speed", splus]), rlit "to", splus, rlit "warp", sstar,
    .grp 1 numRe]

/-- `increase\s+to\s+warp\s*(\d+(?:\.\d+)?)` (line 725). -/
def increaseWarp2Re : Regex :=
  rcat [rlit "increase", splus, rlit "to", splus, rlit "warp", sstar, .grp 1 numRe]

/-- `(?:slow|reduce|decrease)\s+(?:speed\s+)?to\s+warp\s*(\d+(?:\.\d+)?)` (line 730). -/
def slowWarpRe : Regex :=
  rcat [ralt [rlit "slow", rlit "reduce", rlit "decrease"],
    splus, .opt (rcat [rlit "speed", splus]), rlit "to", splus, rlit "warp", sstar,
    .grp 1 numRe]

/-- `ahead\s+warp\s*(?:factor\s*)?(\d+(?:\.\d+)?)` (line 735). -/
def aheadWarpRe : Regex :=
  rcat [rlit "ahead", splus, rlit "warp", sstar, .opt (rcat [rlit "factor", sstar]),
    .grp 1 numRe]

/-- `(?:orbit|enter orbit around|establish orbit around)\s+(\w+(?:\s+\w+)?)` (line 828). -/
def orbitRe : Regex :=
  rcat [ralt [rlit "orbit", rlit "enter orbit around", rlit "establish orbit around"],
    splus, .grp 1 twoWordRe]

/-- `scan\s+(.+)` (line 837). -/
def scanRe : Regex := rcat [rlit "scan", splus, .grp 1 dotplus]

/-- `evasive\s+(?:pattern\s+)?(\w+)` (line 848). -/
def evasiveRe : Regex :=
  rcat [rlit "evasive", splus, .opt (rcat [rlit "pattern", splus]), .grp 1 wplus]

/-- `hail\s+(.+)` (line 858). -/
def hailRe : Regex := rcat [rlit "hail", splus, .grp 1 dotplus]

/-- `(?:fire|target|fire at|fire on)\s+(.+)` (line 869). -/
def fireRe : Regex :=
  rcat [ralt [rlit "fire", rlit "target", rlit "fire at", rlit "fire on"],
    splus, .grp 1 dotplus]

/-- `dock\s+(?:with\s+)?(?:the\s+)?(.+)` (line 878). -/
def dockRe : Regex :=
  rcat [rlit "dock", splus, .opt (rcat [rlit "with", splus]),
    .opt (rcat [rlit "the", splus]), .grp 1 dotplus]

/-- `land\s+(?:on\s+)?(?:the\s+)?(.+)` (line 885). -/
def landRe : Regex :=
  rcat [rlit "land", splus, .opt (rcat [rlit "on", splus]),
    .opt (rcat [rlit "the", splus]), .grp 1 dotplus]

/-- `(?:.*warp\s*(?:factor\s*)?(\d+(?:\.\d+)?))?`, the optional trailing warp
of each navigation pattern (group 2). -/
def navWarpOpt : Regex :=
  .opt (rcat [dotstar, rlit "warp", sstar, .opt (rcat [rlit "factor", sstar]),
    .grp 2 numRe])

/-- `(?:the\s+)?`. -/
def theOpt : Regex := .opt (rcat [rlit "the", splus])

/-- Navigation pattern `(?:set|plot|lay\s+in)\s+(?:a\s+)?course\s+(?:for|to)\s+(?:the\s+)?(\w+(?:\s+\w+)?)` with trailing warp (line 902). -/
def nav1Re : Regex :=
  rcat [ralt [rlit "set", rlit "plot", rcat [rlit "lay", splus, rlit "in"]],
    splus, .opt (rcat [rlit "a", splus]), rlit "course", splus,
    ralt [rlit "for", rlit "to"], splus, theOpt, .grp 1 twoWordRe, navWarpOpt]

/-- Navigation pattern `course\s+(?:for|to)\s+(?:the\s+)?(\w+(?:\s+\w+)?)` with trailing warp (line 904). -/
def nav2Re : Regex :=
  rcat [rlit "course", splus, ralt [rlit "for", rlit "to"], splus, theOpt,
    .grp 1 twoWordRe, navWarpOpt]

/-- Navigation pattern `(?:take\s+us\s+to|head\s+(?:for|to)|go\s+to|let'?s\s+go\s+to)\s+(?:the\s+)?(\w+(?:\s+\w+)?)` with trailing warp (line 906). -/
def nav3Re : Regex :=
  rcat [ralt
      [rcat [rlit "take", splus, rlit "us", splus, rlit "to"],
       rcat [rlit "head", splus, ralt [rlit "for", rlit "to"]],
       rcat [rlit "go", splus, rlit "to"],
       rcat [rlit "let", .opt (.lit [Char.ofNat 39]), rlit "s", splus, rlit "go", splus,
         rlit "to"]],
    splus, theOpt, .grp 1 twoWordRe, navWarpOpt]

/-- Navigation pattern `^(\w+(?:\s+\w+)?)\s+warp\s*(?:factor\s*)?(\d+(?:\.\d+)?)` (line 908, anchored). -/
def nav4Re : Regex :=
  rcat [.grp 1 twoWordRe, splus, rlit "warp", sstar, .opt (rcat [rlit "factor", sstar]),
    .grp 2 numRe]

/-- Navigation pattern `^(?:the\s+)?(\w+(?:\s+\w+)?)\s*$` (line 910, anchored). -/
def nav5Re : Regex := rcat [theOpt, .grp 1 twoWordRe, sstar, .eos]

/-- The `nav_patterns` list, with an anchoring flag for the `^` patterns. -/
def navPatterns : List (Bool × Regex) :=
  [(false, nav1Re), (false, nav2Re), (false, nav3Re), (true, nav4Re), (true, nav5Re)]

/-- The `nav_words` list guarding the bare-warp branch (line 754). -/
def navWords : List String := ["course", "head", "take", "go to", "set", "plot", "lay"]

/-- The explicit warp-speed regex family (lines 720-737): each match returns
a pure warp command with the captured factor. -/
def warpRegexSection (t : List Char) : Option BridgeCommand :=
  match rsrch increaseWarpRe t with
  | some cp => some ⟨"helm", "warp", none, capNum cp 1, none, none⟩
  | none =>
  match rsrch increaseWarp2Re t with
  | some cp => some ⟨"helm", "warp", none, capNum cp 1, none, none⟩
  | none =>
  match rsrch slowWarpRe t with
  | some cp => some ⟨"helm", "warp", none, capNum cp 1, none, none⟩
  | none =>
  match rsrch aheadWarpRe t with
  | some cp => some ⟨"helm", "warp", none, capNum cp 1, none, none⟩
  | none => none

/-- The Star Trek catchphrases (lines 740-749). -/
def catchphraseSection (t : List Char) : Option BridgeCommand :=
  if t = "punch it".data ∨ t = "hit it".data then
    some ⟨"helm", "warp", none, some 9, none, none⟩
  else if t = "engage".data ∨ t = "make it so".data ∨ t = "energize".data then
    some ⟨"helm", "warp", none, some 5, none, none⟩
  else if t = "maximum warp".data ∨ t = "max warp".data then
    some ⟨"helm", "warp", none, some (mkRat 99 10), none, none⟩
  else if t = "warp speed".data ∨ t = "engage warp".data ∨ t = "engage warp drive".data then
    some ⟨"helm", "warp", none, some 5, none, none⟩
  else if t = "faster".data then
    some ⟨"helm", "warp", none, some 7, none, none⟩
  else none

/-- The bare `warp N` branch (lines 751-756): fires only when the earlier
branches did not, the text holds a warp number, no destination keyword of
`valid_targets` occurs in the text, and no navigation verb occurs. -/
def bareWarpSection (t : List Char) : Option BridgeCommand :=
  match rsrch warpMatchRe t with
  | none => none
  | some cp =>
    if valid_targets.any (fun kv => sublist kv.1.data t) then none
    else if navWords.any (fun w => sublist w.data t) then none
    else some ⟨"helm", "warp", none, capNum cp 1, none, none⟩

/-- The impulse phrasings (lines 761-776), in source order. -/
def impulseSection (t : List Char) : Option BridgeCommand :=
  if hasSub "full impulse" t || hasSub "ahead full" t then
    some ⟨"helm", "impulse", none, none, some 100, none⟩
  else if hasSub "half impulse" t then
    some ⟨"helm", "impulse", none, none, some 50, none⟩
  else if hasSub "quarter impulse" t || hasSub "one quarter impulse" t then
    some ⟨"helm", "impulse", none, none, some 25, none⟩
  else if hasSub "three quarter impulse" t then
    some ⟨"helm", "impulse", none, none, some 75, none⟩
  else if hasSub "ahead one third" t || hasSub "one third impulse" t then
    some ⟨"helm", "impulse", none, none, some 33, none⟩
  else if hasSub "ahead two thirds" t || hasSub "two thirds impulse" t then
    some ⟨"helm", "impulse", none, none, some 66, none⟩
  else if t = "impulse".data ∨ t = "impulse power".data ∨ t = "impulse speed".data then
    some ⟨"helm", "impulse", none, none, some 50, none⟩
  else if hasSub "thrusters only" t || hasSub "thrusters" t then
    some ⟨"helm", "impulse", none, none, some 10, none⟩
  else none

def stop_phrases : List String :=
  ["all stop", "stop", "full stop", "hold position", "holding position",
   "drop out of warp", "exit warp", "come out of warp"]

def disengage_phrases : List String :=
  ["disengage", "cancel course", "abort", "disengage autopilot"]

/-- Stop / disengage (lines 781-788). -/
def stopSection (t : List Char) : Option BridgeCommand :=
  if stop_phrases.any (fun p => t == p.data) || hasSub "drop out of warp" t ||
      hasSub "exit warp" t then
    some ⟨"helm", "stop", none, none, none, none⟩
  else if disengage_phrases.any (fun p => t == p.data) || hasSub "disengage" t then
    some ⟨"helm", "disengage", none, none, none, none⟩
  else none

/-- Reverse (line 793). -/
def reverseSection (t : List Char) : Option BridgeCommand :=
  if (["reverse", "reverse engines", "back up", "back us off", "full reverse"] :
      List String).any (fun p => t == p.data) then
    some ⟨"helm", "reverse", none, none, none, none⟩
  else none

/-- Shields (lines 799-802). -/
def shieldSection (t : List Char) : Option BridgeCommand :=
  if hasSub "raise shields" t || hasSub "shields up" t then
    some ⟨"tactical", "raise_shields", none, none, none, none⟩
  else if hasSub "lower shields" t || hasSub "shields down" t then
    some ⟨"tactical", "lower_shields", none, none, none, none⟩
  else none

/-- Alerts (lines 807-812). -/
def alertSection (t : List Char) : Option BridgeCommand :=
  if hasSub "red alert" t || hasSub "battle stations" t then
    some ⟨"tactical", "red_alert", none, none, none, none⟩
  else if hasSub "yellow alert" t then
    some ⟨"tactical", "yellow_alert", none, none, none, none⟩
  else if hasSub "green alert" t || t = "stand down".data then
    some ⟨"tactical", "green_alert", none, none, none, none⟩
  else none

/-- Status / damage report (lines 817-820). -/
def statusSection (t : List Char) : Option BridgeCommand :=
  if (["status", "status report", "report", "ship status"] : List String).any
      (fun p => t == p.data) then
    some ⟨"ops", "status", none, none, none, none⟩
  else if hasSub "damage report" t then
    some ⟨"engineering", "damage_report", none, none, none, none⟩
  else none

/-- Orbit (lines 825-832): exact phrases, then the capture pattern with the
lower-cased capture looked up in the alias table (capitalize fallback). -/
def orbitSection (t : List Char) : Option BridgeCommand :=
  if (["standard orbit", "enter orbit", "establish orbit", "orbit"] : List String).any
      (fun p => t == p.data) then
    some ⟨"helm", "orbit", none, none, none, none⟩
  else
    match rsrch orbitRe t with
    | some cp =>
      let tt := String.mk (lowerList ((capGet cp 1).getD []))
      some ⟨"helm", "orbit", some (fastNormalizeTarget tt), none, none, none⟩
    | none => none

/-- Scan (lines 837-841): the stripped capture looked up in the table. -/
def scanSection (t : List Char) : Option BridgeCommand :=
  match rsrch scanRe t with
  | some cp =>
    let tt := String.mk (trimList ((capGet cp 1).getD []))
    some ⟨"ops", "scan", some (fastNormalizeTarget tt), none, none, none⟩
  | none => none

/-- Evasive (lines 846-851): exact phrases then `evasive (pattern)? X`
with the captured word as the maneuver. -/
def evasiveSection (t : List Char) : Option BridgeCommand :=
  if t = "evasive maneuvers".data ∨ t = "evasive".data then
    some ⟨"helm", "evasive", none, none, none, none⟩
  else
    match rsrch evasiveRe t with
    | some cp =>
      some ⟨"helm", "evasive", none, none, none, some (String.mk ((capGet cp 1).getD []))⟩
    | none => none

/-- Hail (lines 856-862). -/
def hailSection (t : List Char) : Option BridgeCommand :=
  if (["hail them", "open a channel", "on screen", "open channel"] : List String).any
      (fun p => t == p.data) then
    some ⟨"ops", "hail", none, none, none, none⟩
  else
    match rsrch hailRe t with
    | some cp =>
      let tt := String.mk (trimList ((capGet cp 1).getD []))
      some ⟨"ops", "hail", some (fastNormalizeTarget tt), none, none, none⟩
    | none => none

/-- Fire (lines 867-872): fixed phrases give target "enemy"; the capture
pattern capitalizes the stripped capture directly (no table lookup). -/
def fireSection (t : List Char) : Option BridgeCommand :=
  if hasSub "fire phasers" t || hasSub "fire torpedoes" t || hasSub "open fire" t then
    some ⟨"tactical", "fire", some "enemy", none, none, none⟩
  else
    match rsrch fireRe t with
    | some cp =>
      some ⟨"tactical", "fire",
        some (pyCapitalize (String.mk (trimList ((capGet cp 1).getD [])))), none, none, none⟩
    | none => none

/-- Dock / land (lines 877-889): the dock block always returns when "dock"
occurs in the text; the land pattern is tried otherwise. -/
def dockLandSection (t : List Char) : Option BridgeCommand :=
  if hasSub "dock" t then
    match rsrch dockRe t with
    | some cp =>
      let tt := String.mk (lowerList (trimList ((capGet cp 1).getD [])))
      some ⟨"helm", "dock", some (fastNormalizeTarget tt), none, none, none⟩
    | none => some ⟨"helm", "dock", some "Starbase 1", none, none, none⟩
  else
    match rsrch landRe t with
    | some cp =>
      let tt := String.mk (lowerList (trimList ((capGet cp 1).getD [])))
      some ⟨"helm", "land", some (fastNormalizeTarget tt), none, none, none⟩
    | none => none

/-- The `nav_patterns` loop (lines 913-922): for each pattern in order, on a
match the stripped lower-cased group 1 must be a key of `valid_targets`,
else the next pattern is tried; group 2 supplies the warp factor, 5.0 when
it did not participate in the match. -/
def navLoop (f : Nat) : List (Bool × Regex) → List Char → Option BridgeCommand
  | [], _ => none
  | (anch, r) :: ps, t =>
    match (if anch then researchAt f r t else research f r t) with
    | some cp =>
      let tt := String.mk (lowerList (trimList ((capGet cp 1).getD [])))
      let warp : ℚ := match capNum cp 2 with
        | some q => q
        | none => 5
      match List.lookup tt valid_targets with
      | some tgt => some ⟨"helm", "navigate", some tgt, some warp, none, none⟩
      | none => navLoop f ps t
    | none => navLoop f ps t

/-- Navigation (lines 896-922): the home phrases, then the pattern loop. -/
def navSection (t : List Char) : Option BridgeCommand :=
  if hasSub "go home" t || hasSub "take me home" t || hasSub "back to earth" t then
    some ⟨"helm", "navigate", some "Earth", some 5, none, none⟩
  else navLoop (t.length + 8) navPatterns t

/-- The sections of `_try_pattern_match`, in source order; each is a
contiguous block of the function and falls through to the next on no match. -/
def sectionList : List (List Char → Option BridgeCommand) :=
  [warpRegexSection, catchphraseSection, bareWarpSection, impulseSection, stopSection,
   reverseSection, shieldSection, alertSection, statusSection, orbitSection, scanSection,
   evasiveSection, hailSection, fireSection, dockLandSection, navSection]

def firstMatch : List (List Char → Option BridgeCommand) → List Char → Option BridgeCommand
  | [], _ => none
  | f :: fs, t =>
    match f t with
    | some c => some c
    | none => firstMatch fs t

/-- `IntentParser._try_pattern_match` (bridge_ai.py lines 689-924). -/
def tryPatternMatch (text : String) : Option BridgeCommand :=
  firstMatch sectionList (preprocess text)

/-- `IntentParser.parse` restricted to its deterministic skeleton
(lines 936-942): the fast path is tried first and the LLM fallback `llm`
is consulted only when it returns nothing. -/
def parseWithLLM (llm : String → Option BridgeCommand) (text : String) :
    Option BridgeCommand :=
  match tryPatternMatch text with
  | some c => some c
  | none => llm text

/-! ## JSON model (the `json.loads` collaborator and the LLM-reply fields)

`jsonLoads` is a model of Python stdlib `json.loads` on the subset the
program exchanges: objects with string keys, strings without escape
sequences, decimal numbers without exponents, `true`/`false`/`null`.
It is not repository code; it stands for the stdlib collaborator. -/

inductive JsonVal where
  | null
  | bool (b : Bool)
  | num (q : ℚ)
  | str (s : String)
  | obj (fields : List (String × JsonVal))

def lbrace : Char := Char.ofNat 123

def rbrace : Char := Char.ofNat 125

/-- JSON whitespace. -/
def skipWs (l : List Char) : List Char :=
  l.dropWhile (fun c => c = ' ' || c = '\t' || c = '\n' || c = '\r')

/-- Scan a JSON string body up to the closing quote (no escape sequences). -/
def scanStr : List Char → Option (List Char × List Char)
  | [] => none
  | c :: rest =>
    if c = '"' then some ([], rest)
    else if c = '\\' then none
    else (scanStr rest).map (fun p => (c :: p.1, p.2))

/-- Scan an unsigned JSON number `\d+(\.\d+)?` and return the rest. -/
def scanNum (l : List Char) : Option (ℚ × List Char) :=
  let ip := l.takeWhile isDigitChar
  let r1 := l.dropWhile isDigitChar
  if ip.isEmpty then none
  else
    match r1 with
    | [] => some ((digitsVal ip : ℚ), [])
    | c :: f1 =>
      if c = '.' then
        let fp := f1.takeWhile isDigitChar
        let r2 := f1.dropWhile isDigitChar
        if fp.isEmpty then none
        else some ((digitsVal ip : ℚ) + mkRat (digitsVal fp) (10 ^ fp.length), r2)
      else some ((digitsVal ip : ℚ), r1)

/-- Parse the members of a JSON object after its opening brace. -/
def parseJMembers (pv : List Char → Option (JsonVal × List Char)) :
    Nat → List Char → Option (List (String × JsonVal) × List Char)
  | 0, _ => none
  | f + 1, l =>
    match skipWs l with
    | '"' :: rest =>
      match scanStr rest with
      | some (key, rest2) =>
        match skipWs rest2 with
        | ':' :: rest3 =>
          match pv rest3 with
          | some (v, rest4) =>
            match skipWs rest4 with
            | ',' :: rest5 =>
              (parseJMembers pv f rest5).map (fun p => ((String.mk key, v) :: p.1, p.2))
            | c :: rest5 =>
              if c = rbrace then some ([(String.mk key, v)], rest5) else none
            | [] => none
          | none => none
        | _ => none
      | none => none
    | _ => none

/-- Parse one JSON value and return the rest of the input. -/
def parseJValue : Nat → List Char → Option (JsonVal × List Char)
  | 0, _ => none
  | f + 1, l =>
    match skipWs l with
    | [] => none
    | c :: rest =>
      if c = '"' then
        match scanStr rest with
        | some p => some (.str (String.mk p.1), p.2)
        | none => none
      else if c = lbrace then
        match skipWs rest with
        | c2 :: rest2 =>
          if c2 = rbrace then some (.obj [], rest2)
          else
            match parseJMembers (parseJValue f) (rest.length + 1) rest with
            | some p => some (.obj p.1, p.2)
            | none => none
        | [] => none
      else if c = '-' then
        match scanNum rest with
        | some (q, r) => some (.num (-q), r)
        | none => none
      else if leadsWith "null".data (c :: rest) then some (.null, (c :: rest).drop 4)
      else if leadsWith "true".data (c :: rest) then some (.bool true, (c :: rest).drop 4)
      else if leadsWith "false".data (c :: rest) then some (.bool false, (c :: rest).drop 5)
      else
        match scanNum (c :: rest) with
        | some (q, r) => some (.num q, r)
        | none => none

/-- Model of `json.loads`: one JSON value covering the whole (whitespace
padded) input, `none` on anything else (`JSONDecodeError`). -/
def jsonLoads (s : String) : Option JsonVal :=
  match parseJValue (s.length + 1) s.data with
  | some (v, rest) => if (skipWs rest).isEmpty then some v else none
  | none => none

/-- `IntentParser._extract_json` (bridge_ai.py lines 1082-1104): parse the
whole reply; on failure, parse the slice from the first brace to the last
brace; on failure again, no result. -/
def extract_json (text : String) : Option JsonVal :=
  match jsonLoads text with
  | some j => some j
  | none =>
    match findIdx lbrace text.data, rfindIdx rbrace text.data with
    | some start_idx, some end_idx =>
      jsonLoads (String.mk (sliceList text.data start_idx (end_idx + 1)))
    | _, _ => none

/-- `json_data.get(key)` on a parsed object. -/
def jsonGet (fields : List (String × JsonVal)) (k : String) : Option JsonVal :=
  List.lookup k fields

/-- Python truthiness of a JSON value. -/
def jtruthy : JsonVal → Bool
  | .null => false
  | .bool b => b
  | .num q => decide (q ≠ 0)
  | .str s => decide (s ≠ "")
  | .obj fields => !fields.isEmpty

/-- Python `float(x)` on a JSON value: numbers pass through, booleans become
0/1, strings go through the float grammar (`ValueError` when unparseable),
null and objects raise `TypeError` (both modelled as `none`). -/
def pyFloatOf : JsonVal → Option ℚ
  | .num q => some q
  | .bool b => some (if b then 1 else 0)
  | .str s => pyParseFloat s.data
  | .null => none
  | .obj _ => none

/-- `Config.MIN_CONFIDENCE` (bridge_ai.py line 77). -/
def MIN_CONFIDENCE : ℚ := mkRat 3 10

/-- The confidence coercion of `IntentParser.parse` (lines 970-974):
`confidence = json_data.get('confidence', 0.5)`, then
`float(confidence) if confidence else 0.5` with `ValueError`/`TypeError`
caught as 0.5. -/
def coerceConfidence (v : Option JsonVal) : ℚ :=
  match v with
  | none => mkRat 1 2
  | some j => if jtruthy j then (pyFloatOf j).getD (mkRat 1 2) else mkRat 1 2

/-- The confidence gate of `IntentParser.parse` (lines 976-979): the coerced
confidence is returned unless it is below `MIN_CONFIDENCE`, in which case
the parse yields no result. -/
def confidenceCheck (json_data : List (String × JsonVal)) : Option ℚ :=
  let conf := coerceConfidence (jsonGet json_data "confidence")
  if conf < MIN_CONFIDENCE then none else some conf

/-! ## The voice-command cycle -/

/-- `BridgeAI.process_voice_command` (bridge_ai.py lines 1231-1269), with the
external collaborators as parameters: `record` the recorder's output,
`transcribe` the transcriber, `parseCmd` the intent parser, `send` the
transport. Returns (the cycle's success flag, the memory afterwards, the
commands handed to `send_command`). Python truthiness is preserved
(`if not audio_data`, `if not text`): empty audio or an empty transcript
also end the cycle. -/
def process_voice_command (record : Option (List Nat))
    (transcribe : List Nat → Option String)
    (parseCmd : String → Option BridgeCommand)
    (send : BridgeCommand → Bool)
    (m : CommandMemory) : Bool × CommandMemory × List BridgeCommand :=
  match record with
  | none => (false, m, [])
  | some audio =>
    if audio.isEmpty then (false, m, [])
    else
      match transcribe audio with
      | none => (false, m, [])
      | some text =>
        if text = "" then (false, m, [])
        else
          match parseCmd text with
          | none => (false, m, [])
          | some command =>
            if command.is_valid = false then (false, m, [])
            else if send command then (true, m.update command, [command])
            else (false, m, [command])

/-! ## Theorems -/

/-- A command whose department and intent are enumeration members. -/
def goodCmd (c : BridgeCommand) : Prop :=
  validDepartments.contains c.department = true ∧ validIntents.contains c.intent = true

/-- All keys of the two alias tables. -/
def allTargetKeys : List String := valid_targets.map Prod.fst ++ target_map.map Prod.fst

theorem lookup_none_of_not_mem_keys (l : List (String × String)) :
    ∀ k : String, k ∉ l.map Prod.fst → List.lookup k l = none := by
  induction l with
  | nil => intro k _; rfl
  | cons p ps ih =>
    intro k h
    simp only [List.map_cons, List.mem_cons, not_or] at h
    have hb : (k == p.1) = false := beq_eq_false_iff_ne.mpr h.1
    simp [List.lookup, hb, ih k h.2]

/-- C1 test: the validator characterization. -/
theorem C1_is_valid_characterization :
    (∀ c : BridgeCommand, c.is_valid = true ↔
      (c.department ∈ validDepartments ∧ c.intent ∈ validIntents ∧
       (∀ w, c.warp_factor = some w → 0 < w ∧ w < 10) ∧
       (∀ i, c.impulse_percent = some i → 0 ≤ i ∧ i ≤ 100))) ∧
    (BridgeCommand.mk "helm" "warp" none (some 0) none none).is_valid = false ∧
    (BridgeCommand.mk "helm" "warp" none (some 10) none none).is_valid = false ∧
    (BridgeCommand.mk "helm" "warp" none (some (-1)) none none).is_valid = false ∧
    (BridgeCommand.mk "helm" "impulse" none none (some 101) none).is_valid = false ∧
    (BridgeCommand.mk "helm" "impulse" none none (some (-1)) none).is_valid = false ∧
    (BridgeCommand.mk "helm" "warp" none (some (mkRat 99 10)) none none).is_valid = true ∧
    (BridgeCommand.mk "helm" "impulse" none none (some 0) none).is_valid = true ∧
    (BridgeCommand.mk "helm" "impulse" none none (some 100) none).is_valid = true := by
  refine ⟨?_, by decide, by decide, by decide, by decide, by decide, by decide, by decide,
    by decide⟩
  intro c
  obtain ⟨d, i, tg, wf, ip, mv⟩ := c
  cases wf <;> cases ip <;>
    simp [BridgeCommand.is_valid, List.elem_iff, and_assoc]

/-- C2 test: the warp catchphrases and the other impulse phrasings match
their documented mappings and bypass the LLM, but the catalogue phrase
"three quarter impulse" is matched with impulse_percent 25 (the
"quarter impulse" substring check fires first), not the documented 75;
the LLM fallback is not consulted for it either. -/
theorem C2_three_quarter_impulse_eval :
    tryPatternMatch "punch it" = some ⟨"helm", "warp", none, some 9, none, none⟩ ∧
    tryPatternMatch "hit it" = some ⟨"helm", "warp", none, some 9, none, none⟩ ∧
    tryPatternMatch "engage" = some ⟨"helm", "warp", none, some 5, none, none⟩ ∧
    tryPatternMatch "make it so" = some ⟨"helm", "warp", none, some 5, none, none⟩ ∧
    tryPatternMatch "energize" = some ⟨"helm", "warp", none, some 5, none, none⟩ ∧
    tryPatternMatch "maximum warp" =
      some ⟨"helm", "warp", none, some (mkRat 99 10), none, none⟩ ∧
    tryPatternMatch "full impulse" =
      some ⟨"helm", "impulse", none, none, some 100, none⟩ ∧
    tryPatternMatch "half impulse" =
      some ⟨"helm", "impulse", none, none, some 50, none⟩ ∧
    tryPatternMatch "quarter impulse" =
      some ⟨"helm", "impulse", none, none, some 25, none⟩ ∧
    tryPatternMatch "ahead one third" =
      some ⟨"helm", "impulse", none, none, some 33, none⟩ ∧
    tryPatternMatch "ahead two thirds" =
      some ⟨"helm", "impulse", none, none, some 66, none⟩ ∧
    tryPatternMatch "thrusters only" =
      some ⟨"helm", "impulse", none, none, some 10, none⟩ ∧
    tryPatternMatch "three quarter impulse" =
      some ⟨"helm", "impulse", none, none, some 25, none⟩ ∧
    (∀ llm, parseWithLLM llm "three quarter impulse" =
      some ⟨"helm", "impulse", none, none, some 25, none⟩) := by
  have h : tryPatternMatch "three quarter impulse" =
      some ⟨"helm", "impulse", none, none, some 25, none⟩ := by decide
  exact ⟨by decide, by decide, by decide, by decide, by decide, by decide, by decide,
    by decide, by decide, by decide, by decide, by decide, h,
    fun llm => by simp [parseWithLLM, h]⟩

/-- C3 counterexample: a command with a present (empty) target, intent
"warp" and a supplied warp factor 0 leaves memory entirely unchanged, so
"if target is present it becomes last_destination" and "at_warp is set true
when intent is warp and a warp factor was supplied" both fail as stated. -/
theorem C3_counterexample :
    CommandMemory.update CommandMemory.init
        ⟨"helm", "warp", some "", some 0, none, none⟩ = CommandMemory.init ∧
    (⟨"helm", "warp", some "", some 0, none, none⟩ : BridgeCommand).target = some "" ∧
    (⟨"helm", "warp", some "", some 0, none, none⟩ : BridgeCommand).warp_factor = some 0 ∧
    CommandMemory.init.last_destination = none ∧
    CommandMemory.init.at_warp = false := by
  refine ⟨?_, rfl, rfl, rfl, rfl⟩
  decide


theorem updTarget_warp (m : CommandMemory) (c : BridgeCommand) :
    (updTarget m c).last_warp_factor = m.last_warp_factor := by
  unfold updTarget
  repeat' split
  all_goals rfl

theorem updTarget_impulse (m : CommandMemory) (c : BridgeCommand) :
    (updTarget m c).last_impulse = m.last_impulse := by
  unfold updTarget
  repeat' split
  all_goals rfl

theorem updTarget_shields (m : CommandMemory) (c : BridgeCommand) :
    (updTarget m c).shields_raised = m.shields_raised := by
  unfold updTarget
  repeat' split
  all_goals rfl

theorem updTarget_atwarp (m : CommandMemory) (c : BridgeCommand) :
    (updTarget m c).at_warp = m.at_warp := by
  unfold updTarget
  repeat' split
  all_goals rfl

theorem updWarp_dest (m : CommandMemory) (c : BridgeCommand) :
    (updWarp m c).last_destination = m.last_destination := by
  unfold updWarp
  repeat' split
  all_goals rfl

theorem updWarp_impulse (m : CommandMemory) (c : BridgeCommand) :
    (updWarp m c).last_impulse = m.last_impulse := by
  unfold updWarp
  repeat' split
  all_goals rfl

theorem updWarp_shields (m : CommandMemory) (c : BridgeCommand) :
    (updWarp m c).shields_raised = m.shields_raised := by
  unfold updWarp
  repeat' split
  all_goals rfl

theorem updWarp_atwarp (m : CommandMemory) (c : BridgeCommand) :
    (updWarp m c).at_warp = m.at_warp := by
  unfold updWarp
  repeat' split
  all_goals rfl

theorem updImpulse_dest (m : CommandMemory) (c : BridgeCommand) :
    (updImpulse m c).last_destination = m.last_destination := by
  unfold updImpulse
  repeat' split
  all_goals rfl

theorem updImpulse_warp (m : CommandMemory) (c : BridgeCommand) :
    (updImpulse m c).last_warp_factor = m.last_warp_factor := by
  unfold updImpulse
  repeat' split
  all_goals rfl

theorem updImpulse_shields (m : CommandMemory) (c : BridgeCommand) :
    (updImpulse m c).shields_raised = m.shields_raised := by
  unfold updImpulse
  repeat' split
  all_goals rfl

theorem updImpulse_atwarp (m : CommandMemory) (c : BridgeCommand) :
    (updImpulse m c).at_warp = m.at_warp := by
  unfold updImpulse
  repeat' split
  all_goals rfl

theorem updWarpState_dest (m : CommandMemory) (c : BridgeCommand) :
    (updWarpState m c).last_destination = m.last_destination := by
  unfold updWarpState
  repeat' split
  all_goals rfl

theorem updWarpState_warp (m : CommandMemory) (c : BridgeCommand) :
    (updWarpState m c).last_warp_factor = m.last_warp_factor := by
  unfold updWarpState
  repeat' split
  all_goals rfl

theorem updWarpState_impulse (m : CommandMemory) (c : BridgeCommand) :
    (updWarpState m c).last_impulse = m.last_impulse := by
  unfold updWarpState
  repeat' split
  all_goals rfl

theorem updWarpState_shields (m : CommandMemory) (c : BridgeCommand) :
    (updWarpState m c).shields_raised = m.shields_raised := by
  unfold updWarpState
  repeat' split
  all_goals rfl

theorem updShields_dest (m : CommandMemory) (c : BridgeCommand) :
    (updShields m c).last_destination = m.last_destination := by
  unfold updShields
  repeat' split
  all_goals rfl

theorem updShields_warp (m : CommandMemory) (c : BridgeCommand) :
    (updShields m c).last_warp_factor = m.last_warp_factor := by
  unfold updShields
  repeat' split
  all_goals rfl

theorem updShields_impulse (m : CommandMemory) (c : BridgeCommand) :
    (updShields m c).last_impulse = m.last_impulse := by
  unfold updShields
  repeat' split
  all_goals rfl

theorem updShields_atwarp (m : CommandMemory) (c : BridgeCommand) :
    (updShields m c).at_warp = m.at_warp := by
  unfold updShields
  repeat' split
  all_goals rfl

theorem update_dest (m : CommandMemory) (c : BridgeCommand) :
    (m.update c).last_destination = (updTarget m c).last_destination := by
  unfold CommandMemory.update
  rw [updShields_dest, updWarpState_dest, updImpulse_dest, updWarp_dest]

theorem update_warpfactor (m : CommandMemory) (c : BridgeCommand) :
    (m.update c).last_warp_factor = (updWarp (updTarget m c) c).last_warp_factor := by
  unfold CommandMemory.update
  rw [updShields_warp, updWarpState_warp, updImpulse_warp]

theorem update_impulse (m : CommandMemory) (c : BridgeCommand) :
    (m.update c).last_impulse = (updImpulse (updWarp (updTarget m c) c) c).last_impulse := by
  unfold CommandMemory.update
  rw [updShields_impulse, updWarpState_impulse]

theorem update_atwarp (m : CommandMemory) (c : BridgeCommand) :
    (m.update c).at_warp =
      (updWarpState (updImpulse (updWarp (updTarget m c) c) c) c).at_warp := by
  unfold CommandMemory.update
  rw [updShields_atwarp]

theorem update_shields (m : CommandMemory) (c : BridgeCommand) :
    (m.update c).shields_raised =
      (updShields (updWarpState (updImpulse (updWarp (updTarget m c) c) c) c) c).shields_raised :=
  rfl


/-- C3 test (amended): `CommandMemory.update` obeys the rules with Python
truthiness: a present non-empty target becomes last_destination, a present
non-zero warp factor becomes last_warp_factor, a present impulse (zero
included) becomes last_impulse, at_warp is set by warp/navigate with a
non-zero warp factor and cleared by stop/impulse/disengage/orbit, shields
are toggled exactly by raise_shields/lower_shields, and the Mars scenario
holds. -/
theorem C3_update_rules :
    (∀ (m : CommandMemory) (c : BridgeCommand) (t : String),
      c.target = some t → t ≠ "" → (m.update c).last_destination = some t) ∧
    (∀ (m : CommandMemory) (c : BridgeCommand),
      (c.target = none ∨ c.target = some "") →
      (m.update c).last_destination = m.last_destination) ∧
    (∀ (m : CommandMemory) (c : BridgeCommand) (w : ℚ),
      c.warp_factor = some w → w ≠ 0 → (m.update c).last_warp_factor = some w) ∧
    (∀ (m : CommandMemory) (c : BridgeCommand),
      (c.warp_factor = none ∨ c.warp_factor = some 0) →
      (m.update c).last_warp_factor = m.last_warp_factor) ∧
    (∀ (m : CommandMemory) (c : BridgeCommand) (i : ℚ),
      c.impulse_percent = some i → (m.update c).last_impulse = some i) ∧
    (∀ (m : CommandMemory) (c : BridgeCommand) (w : ℚ),
      (c.intent = "warp" ∨ c.intent = "navigate") → c.warp_factor = some w → w ≠ 0 →
      (m.update c).at_warp = true) ∧
    (∀ (m : CommandMemory) (c : BridgeCommand),
      (c.intent = "stop" ∨ c.intent = "impulse" ∨ c.intent = "disengage" ∨
        c.intent = "orbit") →
      (m.update c).at_warp = false) ∧
    (∀ (m : CommandMemory) (c : BridgeCommand),
      c.intent = "raise_shields" → (m.update c).shields_raised = true) ∧
    (∀ (m : CommandMemory) (c : BridgeCommand),
      c.intent = "lower_shields" → (m.update c).shields_raised = false) ∧
    (∀ (m : CommandMemory) (c : BridgeCommand),
      c.intent ≠ "raise_shields" → c.intent ≠ "lower_shields" →
      (m.update c).shields_raised = m.shields_raised) ∧
    CommandMemory.init.update ⟨"helm", "navigate", some "Mars", some 5, none, none⟩ =
      ⟨some "Mars", some 5, none, false, true⟩ := by
  refine ⟨?_, ?_, ?_, ?_, ?_, ?_, ?_, ?_, ?_, ?_, by decide⟩
  · intro m c t h1 h2
    rw [update_dest]
    simp [updTarget, h1, h2]
  · intro m c h1
    rw [update_dest]
    rcases h1 with h1 | h1 <;> simp [updTarget, h1]
  · intro m c w h1 h2
    rw [update_warpfactor]
    simp [updWarp, h1, h2]
  · intro m c h1
    rw [update_warpfactor]
    rcases h1 with h1 | h1 <;> simp [updWarp, h1, updTarget_warp]
  · intro m c i h1
    rw [update_impulse]
    simp [updImpulse, h1]
  · intro m c w h1 h2 h3
    rw [update_atwarp]
    simp [updWarpState, h1, h2, h3]
  · intro m c h1
    rw [update_atwarp]
    have h2 : ¬ (c.intent = "warp" ∨ c.intent = "navigate") := by
      rcases h1 with h | h | h | h <;> simp [h]
    simp [updWarpState, h2, h1]
  · intro m c h1
    rw [update_shields]
    simp [updShields, h1]
  · intro m c h1
    rw [update_shields]
    simp [updShields, h1]
  · intro m c h1 h2
    rw [update_shields]
    simp only [updShields, h1, h2, if_false]
    rw [updWarpState_shields, updImpulse_shields, updWarp_shields, updTarget_shields]

/-- C4 test: in one voice-command cycle, memory is unchanged unless the
command was validated and transported (the cycle returns true), every
command handed to the transport is valid, and a successful cycle updates
memory with a validated, transported command. -/
theorem C4_memory_only_after_transport :
    ∀ (record : Option (List Nat)) (transcribe : List Nat → Option String)
      (parseCmd : String → Option BridgeCommand) (send : BridgeCommand → Bool)
      (m : CommandMemory),
      ((process_voice_command record transcribe parseCmd send m).1 = false →
        (process_voice_command record transcribe parseCmd send m).2.1 = m) ∧
      (∀ c, c ∈ (process_voice_command record transcribe parseCmd send m).2.2 →
        c.is_valid = true) ∧
      ((process_voice_command record transcribe parseCmd send m).1 = true →
        ∃ c, c.is_valid = true ∧ send c = true ∧
          (process_voice_command record transcribe parseCmd send m).2.1 = m.update c) := by
  intro record transcribe parseCmd send m
  cases record with
  | none => simp [process_voice_command]
  | some audio =>
    by_cases haud : audio.isEmpty
    · simp [process_voice_command, haud]
    · cases htr : transcribe audio with
      | none => simp [process_voice_command, haud, htr]
      | some text =>
        by_cases htxt : text = ""
        · simp [process_voice_command, haud, htr, htxt]
        · cases hp : parseCmd text with
          | none => simp [process_voice_command, haud, htr, htxt, hp]
          | some command =>
            by_cases hv : command.is_valid = false
            · simp [process_voice_command, haud, htr, htxt, hp, hv]
            · by_cases hs : send command = true
              · refine ⟨?_, ?_, ?_⟩
                · intro hf
                  simp [process_voice_command, haud, htr, htxt, hp, hv, hs] at hf
                · intro c hc
                  simp [process_voice_command, haud, htr, htxt, hp, hv, hs] at hc
                  subst hc
                  exact Bool.not_eq_false _ |>.mp hv
                · intro _
                  refine ⟨command, Bool.not_eq_false _ |>.mp hv, hs, ?_⟩
                  simp [process_voice_command, haud, htr, htxt, hp, hv, hs]
              · refine ⟨?_, ?_, ?_⟩
                · intro _
                  simp [process_voice_command, haud, htr, htxt, hp, hv, hs]
                · intro c hc
                  simp [process_voice_command, haud, htr, htxt, hp, hv, hs] at hc
                  subst hc
                  exact Bool.not_eq_false _ |>.mp hv
                · intro ht
                  simp [process_voice_command, haud, htr, htxt, hp, hv, hs] at ht

/-- C5 counterexample: a reply whose confidence is present, parseable and 0
(neither missing nor unparseable) is still defaulted to 0.5 and passes the
0.3 gate, though 0 is below the threshold. -/
theorem C5_counterexample :
    coerceConfidence (some (JsonVal.num 0)) = mkRat 1 2 ∧
    pyFloatOf (JsonVal.num 0) = some 0 ∧
    confidenceCheck [("confidence", JsonVal.num 0)] = some (mkRat 1 2) ∧
    (0 : ℚ) < MIN_CONFIDENCE := by
  refine ⟨by decide, rfl, by decide, by decide⟩

/-- C5 test (amended): the confidence is coerced to a float and defaults to
0.5 when it is missing, unparseable, or falsy (0, false, empty, null); a
truthy parseable value passes through; with the configured 0.3 threshold,
coerced confidence 0.29 is rejected and 0.30 is accepted. -/
theorem C5_confidence_gate :
    coerceConfidence none = mkRat 1 2 ∧
    (∀ j, pyFloatOf j = none → coerceConfidence (some j) = mkRat 1 2) ∧
    (∀ j, jtruthy j = false → coerceConfidence (some j) = mkRat 1 2) ∧
    (∀ j q, jtruthy j = true → pyFloatOf j = some q → coerceConfidence (some j) = q) ∧
    MIN_CONFIDENCE = mkRat 3 10 ∧
    confidenceCheck [("confidence", JsonVal.num (mkRat 29 100))] = none ∧
    confidenceCheck [("confidence", JsonVal.num (mkRat 3 10))] = some (mkRat 3 10) := by
  refine ⟨rfl, ?_, ?_, ?_, rfl, by decide, by decide⟩
  · intro j h
    cases hj : jtruthy j <;> simp [coerceConfidence, hj, h]
  · intro j h
    simp [coerceConfidence, h]
  · intro j q h1 h2
    simp [coerceConfidence, h1, h2]

theorem navLoop_shape :
    ∀ (f : Nat) (ps : List (Bool × Regex)) (t : List Char) (c : BridgeCommand),
      navLoop f ps t = some c →
      c.department = "helm" ∧ c.intent = "navigate" ∧
      (∃ tt tgt, List.lookup tt valid_targets = some tgt ∧ c.target = some tgt) ∧
      (∃ w, c.warp_factor = some w ∧ (w = 5 ∨ ∃ ds, parseFloat ds = some w)) := by
  intro f ps
  induction ps with
  | nil =>
    intro t c h
    exact absurd h (by simp [navLoop])
  | cons p ps ih =>
    obtain ⟨anch, r⟩ := p
    intro t c h
    simp only [navLoop] at h
    split at h
    case h_2 => exact ih t c h
    case h_1 cp hcp =>
      split at h
      case h_2 => exact ih t c h
      case h_1 tgt heq =>
        have h2 := Option.some.inj h
        subst h2
        refine ⟨rfl, rfl, ⟨_, tgt, heq, rfl⟩, ?_⟩
        cases hcap : capNum cp 2 with
        | none => exact ⟨5, by simp [hcap], Or.inl rfl⟩
        | some q =>
          refine ⟨q, by simp [hcap], Or.inr ?_⟩
          simp only [capNum, Option.bind_eq_some] at hcap
          obtain ⟨ds, _, hds⟩ := hcap
          exact ⟨ds, hds⟩

theorem warpRegexSection_good : ∀ t c, warpRegexSection t = some c → goodCmd c := by
  intro t c h
  unfold warpRegexSection at h
  repeat' split at h
  all_goals first
    | exact Option.noConfusion h
    | (have h2 := Option.some.inj h; subst h2; exact ⟨rfl, rfl⟩)

theorem catchphraseSection_good : ∀ t c, catchphraseSection t = some c → goodCmd c := by
  intro t c h
  unfold catchphraseSection at h
  repeat' split at h
  all_goals first
    | exact Option.noConfusion h
    | (have h2 := Option.some.inj h; subst h2; exact ⟨rfl, rfl⟩)

theorem bareWarpSection_good : ∀ t c, bareWarpSection t = some c → goodCmd c := by
  intro t c h
  unfold bareWarpSection at h
  repeat' split at h
  all_goals first
    | exact Option.noConfusion h
    | (have h2 := Option.some.inj h; subst h2; exact ⟨rfl, rfl⟩)

theorem impulseSection_good : ∀ t c, impulseSection t = some c → goodCmd c := by
  intro t c h
  unfold impulseSection at h
  repeat' split at h
  all_goals first
    | exact Option.noConfusion h
    | (have h2 := Option.some.inj h; subst h2; exact ⟨rfl, rfl⟩)

theorem stopSection_good : ∀ t c, stopSection t = some c → goodCmd c := by
  intro t c h
  unfold stopSection at h
  repeat' split at h
  all_goals first
    | exact Option.noConfusion h
    | (have h2 := Option.some.inj h; subst h2; exact ⟨rfl, rfl⟩)

theorem reverseSection_good : ∀ t c, reverseSection t = some c → goodCmd c := by
  intro t c h
  unfold reverseSection at h
  repeat' split at h
  all_goals first
    | exact Option.noConfusion h
    | (have h2 := Option.some.inj h; subst h2; exact ⟨rfl, rfl⟩)

theorem shieldSection_good : ∀ t c, shieldSection t = some c → goodCmd c := by
  intro t c h
  unfold shieldSection at h
  repeat' split at h
  all_goals first
    | exact Option.noConfusion h
    | (have h2 := Option.some.inj h; subst h2; exact ⟨rfl, rfl⟩)

theorem alertSection_good : ∀ t c, alertSection t = some c → goodCmd c := by
  intro t c h
  unfold alertSection at h
  repeat' split at h
  all_goals first
    | exact Option.noConfusion h
    | (have h2 := Option.some.inj h; subst h2; exact ⟨rfl, rfl⟩)

theorem statusSection_good : ∀ t c, statusSection t = some c → goodCmd c := by
  intro t c h
  unfold statusSection at h
  repeat' split at h
  all_goals first
    | exact Option.noConfusion h
    | (have h2 := Option.some.inj h; subst h2; exact ⟨rfl, rfl⟩)

theorem orbitSection_good : ∀ t c, orbitSection t = some c → goodCmd c := by
  intro t c h
  simp only [orbitSection] at h
  repeat' split at h
  all_goals first
    | exact Option.noConfusion h
    | (have h2 := Option.some.inj h; subst h2; exact ⟨rfl, rfl⟩)

theorem scanSection_good : ∀ t c, scanSection t = some c → goodCmd c := by
  intro t c h
  simp only [scanSection] at h
  repeat' split at h
  all_goals first
    | exact Option.noConfusion h
    | (have h2 := Option.some.inj h; subst h2; exact ⟨rfl, rfl⟩)

theorem evasiveSection_good : ∀ t c, evasiveSection t = some c → goodCmd c := by
  intro t c h
  simp only [evasiveSection] at h
  repeat' split at h
  all_goals first
    | exact Option.noConfusion h
    | (have h2 := Option.some.inj h; subst h2; exact ⟨rfl, rfl⟩)

theorem hailSection_good : ∀ t c, hailSection t = some c → goodCmd c := by
  intro t c h
  simp only [hailSection] at h
  repeat' split at h
  all_goals first
    | exact Option.noConfusion h
    | (have h2 := Option.some.inj h; subst h2; exact ⟨rfl, rfl⟩)

theorem fireSection_good : ∀ t c, fireSection t = some c → goodCmd c := by
  intro t c h
  simp only [fireSection] at h
  repeat' split at h
  all_goals first
    | exact Option.noConfusion h
    | (have h2 := Option.some.inj h; subst h2; exact ⟨rfl, rfl⟩)

theorem dockLandSection_good : ∀ t c, dockLandSection t = some c → goodCmd c := by
  intro t c h
  simp only [dockLandSection] at h
  repeat' split at h
  all_goals first
    | exact Option.noConfusion h
    | (have h2 := Option.some.inj h; subst h2; exact ⟨rfl, rfl⟩)

theorem navSection_good : ∀ t c, navSection t = some c → goodCmd c := by
  intro t c h
  simp only [navSection] at h
  split at h
  · have h2 := Option.some.inj h
    subst h2
    exact ⟨rfl, rfl⟩
  · obtain ⟨hd, hi, -, -⟩ := navLoop_shape _ _ _ _ h
    exact ⟨by rw [hd]; rfl, by rw [hi]; rfl⟩

theorem firstMatch_good :
    ∀ (fs : List (List Char → Option BridgeCommand)) (t : List Char) (c : BridgeCommand),
      (∀ g ∈ fs, ∀ c2, g t = some c2 → goodCmd c2) → firstMatch fs t = some c →
      goodCmd c := by
  intro fs
  induction fs with
  | nil => intro t c _ h; exact Option.noConfusion h
  | cons g gs ih =>
    intro t c hall h
    cases hg : g t with
    | none =>
      rw [firstMatch, hg] at h
      exact ih t c (fun g2 hm => hall g2 (List.mem_cons_of_mem _ hm)) h
    | some x =>
      rw [firstMatch, hg] at h
      have h2 := Option.some.inj h
      subst h2
      exact hall g (List.mem_cons_self _ _) x hg

/-- C6 test: a command returned by the navigation-pattern loop always has a
target that resolved through the `valid_targets` alias table, and its warp
factor is the captured number or the 5.0 default; the utterance "take us to
jupiter" returns exactly helm/navigate/Jupiter/warp 5. -/
theorem C6_navigation_family :
    (∀ (f : Nat) (ps : List (Bool × Regex)) (t : List Char) (c : BridgeCommand),
      navLoop f ps t = some c →
      (∃ tt tgt, List.lookup tt valid_targets = some tgt ∧ c.target = some tgt) ∧
      (∃ w, c.warp_factor = some w ∧ (w = 5 ∨ ∃ ds, parseFloat ds = some w))) ∧
    tryPatternMatch "take us to jupiter" =
      some ⟨"helm", "navigate", some "Jupiter", some 5, none, none⟩ := by
  refine ⟨?_, by decide⟩
  intro f ps t c h
  obtain ⟨-, -, h1, h2⟩ := navLoop_shape f ps t c h
  exact ⟨h1, h2⟩

/-- C7 test: the alias lookup of the pattern matcher (`valid_targets` with
capitalize fallback) and the one applied to the LLM reply's target
(`target_map` with capitalize fallback) produce the same canonical name on
every string. -/
theorem C7_alias_lookup_agrees :
    ∀ t : String, fastNormalizeTarget t = llmNormalizeTarget t := by
  have hmem : ∀ k ∈ allTargetKeys, fastNormalizeTarget k = llmNormalizeTarget k := by decide
  intro t
  by_cases h : t ∈ allTargetKeys
  · exact hmem t h
  · have h1 : t ∉ valid_targets.map Prod.fst := fun hm => h (List.mem_append_left _ hm)
    have h2 : t ∉ target_map.map Prod.fst := fun hm => h (List.mem_append_right _ hm)
    simp [fastNormalizeTarget, llmNormalizeTarget,
      lookup_none_of_not_mem_keys valid_targets t h1,
      lookup_none_of_not_mem_keys target_map t h2]

/-- C8 test: the bare warp branch returns a command only when no destination
keyword of the alias table and no navigation verb occurs in the text; the
utterance "head to mars warp 5" is not matched as a warp-speed command (the
whole fast path yields nothing for it). -/
theorem C8_bare_warp_guard :
    (∀ (t : List Char) (c : BridgeCommand), bareWarpSection t = some c →
      (∀ kv ∈ valid_targets, sublist kv.1.data t = false) ∧
      (∀ w ∈ navWords, sublist w.data t = false)) ∧
    tryPatternMatch "head to mars warp 5" = none := by
  refine ⟨?_, by decide⟩
  intro t c h
  unfold bareWarpSection at h
  split at h
  · exact Option.noConfusion h
  · split at h
    · exact Option.noConfusion h
    · split at h
      · exact Option.noConfusion h
      · rename_i h1 h2
        refine ⟨fun kv hkv => ?_, fun w hw => ?_⟩
        · exact Bool.eq_false_iff.mpr
            (fun hb => h1 (List.any_eq_true.mpr ⟨kv, hkv, hb⟩))
        · exact Bool.eq_false_iff.mpr
            (fun hb => h2 (List.any_eq_true.mpr ⟨w, hw, hb⟩))

/-- C9 counterexample: the text "42" contains no brace at all, yet the whole
reply parses as the JSON scalar 42, so extraction does not yield "no
result". -/
theorem C9_counterexample :
    (extract_json "42").isSome = true ∧
    findIdx lbrace "42".data = none ∧
    rfindIdx rbrace "42".data = none := ⟨rfl, rfl, rfl⟩

/-- C9 test (amended): extraction first parses the whole reply; if that
fails it parses the slice from the first brace to the last brace; if the
whole-reply parse failed and either brace is missing the result is none; a
bare JSON object and an object surrounded by prose succeed, and malformed
brace-free text yields none. -/
theorem C9_extract_json :
    (∀ (t : String) (j : JsonVal), jsonLoads t = some j → extract_json t = some j) ∧
    (∀ t : String, jsonLoads t = none →
      (findIdx lbrace t.data = none ∨ rfindIdx rbrace t.data = none) →
      extract_json t = none) ∧
    (∀ (t : String) (si ei : Nat), jsonLoads t = none →
      findIdx lbrace t.data = some si → rfindIdx rbrace t.data = some ei →
      extract_json t = jsonLoads (String.mk (sliceList t.data si (ei + 1)))) ∧
    (extract_json "\x7b\"intent\": \"stop\", \"confidence\": 0.9\x7d").isSome = true ∧
    (extract_json "Here is the command: \x7b\"intent\": \"stop\"\x7d as requested").isSome
      = true ∧
    extract_json "I could not understand that command" = none := by
  refine ⟨?_, ?_, ?_, rfl, rfl, rfl⟩
  · intro t j h
    simp [extract_json, h]
  · intro t h1 h2
    rcases h2 with h2 | h2
    · simp [extract_json, h1, h2]
    · cases hf : findIdx lbrace t.data <;> simp [extract_json, h1, h2, hf]
  · intro t si ei h1 h2 h3
    simp [extract_json, h1, h2, h3]

/-- C10 test: every command the pattern matcher returns carries an
enumeration department and intent; numeric ranges are not checked there:
"warp 15" yields warp_factor 15, outside (0, 10), and only the downstream
validator rejects it. -/
theorem C10_matcher_invariant :
    (∀ (s : String) (c : BridgeCommand), tryPatternMatch s = some c → goodCmd c) ∧
    tryPatternMatch "warp 15" = some ⟨"helm", "warp", none, some 15, none, none⟩ ∧
    (⟨"helm", "warp", none, some 15, none, none⟩ : BridgeCommand).is_valid = false ∧
    ¬ ((0 : ℚ) < 15 ∧ (15 : ℚ) < 10) := by
  refine ⟨?_, by decide, by decide, by decide⟩
  intro s c h
  unfold tryPatternMatch at h
  refine firstMatch_good sectionList (preprocess s) c ?_ h
  intro g hg c2 hc2
  simp only [sectionList, List.mem_cons, List.not_mem_nil, or_false] at hg
  rcases hg with rfl | rfl | rfl | rfl | rfl | rfl | rfl | rfl | rfl | rfl | rfl | rfl |
    rfl | rfl | rfl | rfl
  · exact warpRegexSection_good _ _ hc2
  · exact catchphraseSection_good _ _ hc2
  · exact bareWarpSection_good _ _ hc2
  · exact impulseSection_good _ _ hc2
  · exact stopSection_good _ _ hc2
  · exact reverseSection_good _ _ hc2
  · exact shieldSection_good _ _ hc2
  · exact alertSection_good _ _ hc2
  · exact statusSection_good _ _ hc2
  · exact orbitSection_good _ _ hc2
  · exact scanSection_good _ _ hc2
  · exact evasiveSection_good _ _ hc2
  · exact hailSection_good _ _ hc2
  · exact fireSection_good _ _ hc2
  · exact dockLandSection_good _ _ hc2
  · exact navSection_good _ _ hc2
